import Mathlib

/-
Verification of the bambou session layer (src/bambou/session.go).

The Go file `session.go` is shallowly embedded below.  Pure helpers
(`getGeneralURL`, `getPersonalURL`, `getURLForChildrenIdentity`,
`makeAuthorizationHeaders`, `prepareHeaders`, `readHeaders`) become Lean
functions; the stateful request dispatch (`send`) becomes a fuel-indexed
function over an abstract `World` that supplies the HTTP transport
(`client.Do`) and the external JSON codec (`json.Unmarshal`), both of
which live outside the session layer.  Go slice indexing that can panic
is modelled by an explicit `panic` outcome, and Go's unbounded recursion
on repeated 300 responses is modelled by fuel exhaustion (`none`).

Types that the session file uses but that are declared in other files of
the repository (`Error`, `Identity`, the `Identifiable`/`Rootable`
capabilities, `FetchingInfo`, the VSD error payload) are modelled from
the spec, as noted on each declaration.
-/

set_option autoImplicit false

namespace Bambou

/-- Modelled from the spec: the uniform error value carrying a title and a
description, used for every failure path (`Error`, built by
`NewBambouError`). -/
structure Error where
  title : String
  description : String
deriving DecidableEq, Repr

/-- Constructor used at every failure site in `session.go`. -/
def NewBambouError (title description : String) : Error :=
  { title := title, description := description }

/-- Modelled from the spec: a resource type's category (REST path segment)
and name (root resource path segment). -/
structure Identity where
  Category : String
  Name : String
deriving DecidableEq, Repr

/-- Modelled from the spec: an `Identifiable` resource carries an
`Identity` and a string identifier (empty before creation); a `Rootable`
resource is an `Identifiable` that additionally holds a mutable API key.
The Go dynamic type test `o.(Rootable)` is modelled by the `isRootable`
flag; `apiKey` is meaningful only when `isRootable` is set. -/
structure Identifiable where
  identity : Identity
  identifier : String
  isRootable : Bool
  apiKey : String
deriving DecidableEq, Repr

/-- Rootable's SetAPIKey, modelled from the spec (mutation becomes a
functional update). -/
def SetAPIKey (o : Identifiable) (key : String) : Identifiable :=
  { o with apiKey := key }

/-- Modelled from the spec: pagination/filter/sort metadata exchanged via
request/response headers. -/
structure FetchingInfo where
  Filter : String
  FilterType : String
  OrderBy : String
  Page : Int
  PageSize : Int
  GroupBy : List String
  TotalCount : Int
deriving DecidableEq, Repr

/-- Modelled from the spec: one `title`/`description` entry of the
structured 404/409 error payload. -/
structure VsdErrorDescription where
  Title : String
  Description : String
deriving DecidableEq, Repr

/-- Modelled from the spec: one error group of the 404/409 payload. -/
structure VsdError where
  Descriptions : List VsdErrorDescription
deriving DecidableEq, Repr

/-- Modelled from the spec: the decoded 404/409 error-list payload
(`VsdErrorList`). -/
structure VsdErrorList where
  VsdErrors : List VsdError
deriving DecidableEq, Repr

/-- The `Session` struct of session.go.  The `*tls.Certificate` field only
matters through its nil test in `prepareHeaders`, so it is modelled by a
Bool; the `root Rootable` interface value may be nil, hence `Option`. -/
structure Session where
  root : Option Identifiable
  hasCertificate : Bool
  Username : String
  Password : String
  Organization : String
  URL : String
deriving DecidableEq, Repr

/-- Request body values that session.go puts on outgoing requests: none,
a JSON array of identifiers (AssignChildren), or a JSON-encoded object
(SaveEntity/CreateChild). -/
inductive RequestBody where
  | empty : RequestBody
  | idList (ids : List String) : RequestBody
  | obj (o : Identifiable) : RequestBody
deriving DecidableEq, Repr

/-- An `http.Request` as session.go observes it: method, URL string, body
and headers. -/
structure Request where
  Method : String
  url : String
  body : RequestBody
  headers : List (String × String)
deriving DecidableEq, Repr

/-- An `http.Response` as session.go observes it: status code, status
text, headers, content length and raw body. -/
structure Response where
  statusCode : Nat
  status : String
  headers : List (String × String)
  contentLength : Int
  body : String
deriving DecidableEq, Repr

/-- Header lookup, as Go's `Header.Get`: empty string when absent. -/
def getHeader (hs : List (String × String)) (k : String) : String :=
  match hs.find? (fun p => p.1 = k) with
  | some p => p.2
  | none => ""

/-- Header update, as Go's `Header.Set`: replace any existing values of
the key by the single new one. -/
def setHeader (hs : List (String × String)) (k v : String) : List (String × String) :=
  hs.filter (fun p => p.1 ≠ k) ++ [(k, v)]

/-- `Header.Set` lifted to a request. -/
def reqSetHeader (r : Request) (k v : String) : Request :=
  { r with headers := setHeader r.headers k v }

/-- The standard base64 alphabet used by Go's `base64.StdEncoding`. -/
def base64Alphabet : List Char :=
  "ABCDEFGHIJKLMNOPQRSTUVWXYZabcdefghijklmnopqrstuvwxyz0123456789+/".toList

/-- Character for a 6-bit group. -/
def base64Char (n : Nat) : Char :=
  base64Alphabet.getD n 'A'

/-- Standard base64 of a byte sequence, 3 bytes at a time, with `=`
padding — Go's `base64.StdEncoding.EncodeToString`. -/
def base64Chunks : List Nat → List Char
  | [] => []
  | [a] => [base64Char (a / 4), base64Char (a % 4 * 16), '=', '=']
  | [a, b] => [base64Char (a / 4), base64Char (a % 4 * 16 + b / 16), base64Char (b % 16 * 4), '=']
  | a :: b :: c :: rest =>
      base64Char (a / 4) :: base64Char (a % 4 * 16 + b / 16) ::
        base64Char (b % 16 * 4 + c / 64) :: base64Char (c % 64) :: base64Chunks rest

/-- UTF-8 encoding of one character, as byte values. -/
def utf8Bytes (c : Char) : List Nat :=
  let n := c.toNat
  if n < 128 then [n]
  else if n < 2048 then [192 + n / 64, 128 + n % 64]
  else if n < 65536 then [224 + n / 4096, 128 + n / 64 % 64, 128 + n % 64]
  else [240 + n / 262144, 128 + n / 4096 % 64, 128 + n / 64 % 64, 128 + n % 64]

/-- Go's `[]byte(s)`: the UTF-8 bytes of the string. -/
def stringBytes (s : String) : List Nat :=
  (s.data.map utf8Bytes).flatten

/-- Go's `base64.StdEncoding.EncodeToString([]byte(s))`: base64 of the
UTF-8 bytes of `s`. -/
def base64EncodeToString (s : String) : String :=
  String.mk (base64Chunks (stringBytes s))

/-- session.go `getGeneralURL`: baseURL + "/" + category. -/
def getGeneralURL (s : Session) (o : Identifiable) : String :=
  s.URL ++ "/" ++ o.identity.Category

/-- session.go `getPersonalURL`: root resources use baseURL + "/" + name;
other resources need a non-empty identifier. -/
def getPersonalURL (s : Session) (o : Identifiable) : Except Error String :=
  if o.isRootable then
    .ok (s.URL ++ "/" ++ o.identity.Name)
  else if o.identifier = "" then
    .error (NewBambouError "VSD error" "Cannot GetPersonalURL of an object with no ID set")
  else
    .ok (getGeneralURL s o ++ "/" ++ o.identifier)

/-- session.go `getURLForChildrenIdentity`: children hang off the base URL
for a root parent, else off the parent's personal URL. -/
def getURLForChildrenIdentity (s : Session) (o : Identifiable) (childrenIdentity : Identity) :
    Except Error String :=
  if o.isRootable then
    .ok (s.URL ++ "/" ++ childrenIdentity.Category)
  else
    match getPersonalURL s o with
    | .error berr => .error berr
    | .ok url => .ok (url ++ "/" ++ childrenIdentity.Category)

/-- session.go `makeAuthorizationHeaders` for user/password auth. -/
def makeAuthorizationHeaders (s : Session) : Except Error String :=
  if s.Username = "" then
    .error (NewBambouError "Invalid Credentials" "No username given")
  else
    match s.root with
    | none => .error (NewBambouError "Invalid Credentials" "No root user set")
    | some root =>
      if s.Password = "" ∧ root.apiKey = "" then
        .error (NewBambouError "Invalid Credentials" "No password or authentication token given")
      else
        let key := if root.apiKey = "" then s.Password else root.apiKey
        .ok ("XREST " ++ base64EncodeToString (s.Username ++ ":" ++ key))

/-- The common and per-`FetchingInfo` headers of session.go
`prepareHeaders` (everything after the authentication branch): default
page size, content type, then filter/order-by/page/page-size/group-by
headers for set fields. -/
def prepareCommonHeaders (request : Request) (info : Option FetchingInfo) : Request :=
  let request := reqSetHeader request "X-Nuage-PageSize" "50"
  let request := reqSetHeader request "Content-Type" "application/json"
  match info with
  | none => request
  | some info =>
    let request := if info.Filter ≠ "" then reqSetHeader request "X-Nuage-Filter" info.Filter else request
    let request := if info.OrderBy ≠ "" then reqSetHeader request "X-Nuage-OrderBy" info.OrderBy else request
    let request := if info.Page ≠ -1 then reqSetHeader request "X-Nuage-Page" (toString info.Page) else request
    let request := if info.PageSize > 0 then reqSetHeader request "X-Nuage-PageSize" (toString info.PageSize) else request
    let request :=
      if info.GroupBy.length > 0 then
        reqSetHeader (reqSetHeader request "X-Nuage-GroupBy" "true")
          "X-Nuage-Attributes" (String.intercalate ", " info.GroupBy)
      else request
    request

/-- session.go `prepareHeaders`.  In certificate mode only the transport
is reconfigured (outside this model) and the common headers are set.  In
password mode a failing `makeAuthorizationHeaders` returns early with the
error, leaving the request untouched; otherwise the Authorization and
organization headers are set before the common ones.  The pair returned
is (possibly updated request, error as in the Go return value). -/
def prepareHeaders (s : Session) (request : Request) (info : Option FetchingInfo) :
    Request × Option Error :=
  if s.hasCertificate then
    (prepareCommonHeaders request info, none)
  else
    match makeAuthorizationHeaders s with
    | .error e => (request, some e)
    | .ok authString =>
      let request := reqSetHeader request "Authorization" authString
      let request := reqSetHeader request "X-Nuage-Organization" s.Organization
      (prepareCommonHeaders request info, none)

/-- Go's `strconv.Atoi` with the error ignored, as session.go uses it:
the parsed value, or 0 when parsing fails. -/
def atoi0 (s : String) : Int :=
  match s.toInt? with
  | some n => n
  | none =>
    if s.startsWith "+" then
      match (s.drop 1).toInt? with
      | some n => n
      | none => 0
    else 0

/-- session.go `readHeaders`: overwrite the `FetchingInfo` from the
mirrored response headers (no-op on a nil info). -/
def readHeaders (response : Response) (info : Option FetchingInfo) : Option FetchingInfo :=
  info.map fun i =>
    { i with
      Filter := getHeader response.headers "X-Nuage-Filter"
      FilterType := getHeader response.headers "X-Nuage-FilterType"
      OrderBy := getHeader response.headers "X-Nuage-OrderBy"
      Page := atoi0 (getHeader response.headers "X-Nuage-Page")
      PageSize := atoi0 (getHeader response.headers "X-Nuage-PageSize")
      TotalCount := atoi0 (getHeader response.headers "X-Nuage-Count") }

/-- The environment `send` runs against: the HTTP transport
(`client.Do`, transport failures as `Except.error`) and the external
`json.Unmarshal` into a `VsdErrorList` used on 404/409 bodies. -/
structure World where
  respond : Request → Except String Response
  decodeVsdErrorList : String → Except String VsdErrorList

/-- Outcome of `send`: a response together with the updated
`FetchingInfo` (the `readHeaders` side effect), an `Error`, or a Go
runtime panic (out-of-range slice indexing). -/
inductive SendOutcome where
  | ok (response : Response) (info : Option FetchingInfo) : SendOutcome
  | err (e : Error) : SendOutcome
  | panic : SendOutcome
deriving DecidableEq, Repr

/-- session.go `send`, fuel-indexed because the 300 branch recurses
without bound; `none` models that non-termination.  It returns the list
of requests handed to `client.Do` (in order) together with the outcome.
Note that the error of `prepareHeaders` is discarded, exactly as in the
source (`s.prepareHeaders(request, info)` on its own line). -/
def send (s : Session) (w : World) :
    Nat → Request → Option FetchingInfo → Option (List Request × SendOutcome)
  | 0, _, _ => none
  | fuel + 1, request, info =>
    let request := (prepareHeaders s request info).1
    match w.respond request with
    | .error msg => some ([request], .err (NewBambouError "" msg))
    | .ok response =>
      if response.statusCode = 200 ∨ response.statusCode = 201 ∨ response.statusCode = 204 then
        some ([request], .ok response (readHeaders response info))
      else if response.statusCode = 300 then
        let newURL := request.url ++ "?responseChoice=1"
        let newRequest : Request := { Method := request.Method, url := newURL, body := request.body, headers := [] }
        match send s w fuel newRequest info with
        | none => none
        | some (reqs, out) => some (request :: reqs, out)
      else if response.statusCode = 409 ∨ response.statusCode = 404 then
        match w.decodeVsdErrorList response.body with
        | .error msg => some ([request], .err (NewBambouError "" msg))
        | .ok vsdresp =>
          match vsdresp.VsdErrors with
          | [] => some ([request], .panic)
          | verr :: _ =>
            match verr.Descriptions with
            | [] => some ([request], .panic)
            | d :: _ => some ([request], .err (NewBambouError d.Title d.Description))
      else
        some ([request], .err (NewBambouError "" response.status))

/-- Outcome of a CRUD operation: the updated destination value together
with the updated `FetchingInfo`, an `Error`, or a Go runtime panic. -/
inductive OpResult (δ : Type) where
  | ok (dest : δ) (info : Option FetchingInfo) : OpResult δ
  | err (e : Error) : OpResult δ
  | panic : OpResult δ
deriving DecidableEq, Repr

/-- session.go `FetchEntity`: GET the personal URL and decode the body
into the object (the one-element `IdentifiablesList{object}` trick is the
external `json.Unmarshal`, abstracted as `decodeEntity`, which returns
the updated object).  The second component is the list of dispatched
requests; `none` models non-termination (fuel exhaustion inside `send`). -/
def FetchEntity (s : Session) (w : World)
    (decodeEntity : String → Identifiable → Except String Identifiable) (fuel : Nat)
    (object : Identifiable) : Option (OpResult Identifiable × List Request) :=
  match getPersonalURL s object with
  | .error berr => some (.err berr, [])
  | .ok url =>
    let request : Request := { Method := "GET", url := url, body := .empty, headers := [] }
    match send s w fuel request none with
    | none => none
    | some (reqs, .panic) => some (.panic, reqs)
    | some (reqs, .err berr) => some (.err berr, reqs)
    | some (reqs, .ok response _) =>
      match decodeEntity response.body object with
      | .error msg => some (.err (NewBambouError "" msg), reqs)
      | .ok object' => some (.ok object' none, reqs)

/-- session.go `FetchChildren`: GET the children URL; on success, skip
decoding when the response is 204 or has zero content length, leaving the
destination untouched; otherwise decode the body into the destination
(external `json.Unmarshal`, abstracted as `decodeChildren`). -/
def FetchChildren {δ : Type} (s : Session) (w : World)
    (decodeChildren : String → δ → Except String δ) (fuel : Nat)
    (parent : Identifiable) (identity : Identity) (dest : δ) (info : Option FetchingInfo) :
    Option (OpResult δ × List Request) :=
  match getURLForChildrenIdentity s parent identity with
  | .error berr => some (.err berr, [])
  | .ok url =>
    let request : Request := { Method := "GET", url := url, body := .empty, headers := [] }
    match send s w fuel request info with
    | none => none
    | some (reqs, .panic) => some (.panic, reqs)
    | some (reqs, .err berr) => some (.err berr, reqs)
    | some (reqs, .ok response info') =>
      if response.statusCode = 204 ∨ response.contentLength = 0 then
        some (.ok dest info', reqs)
      else
        match decodeChildren response.body dest with
        | .error msg => some (.err (NewBambouError "" msg), reqs)
        | .ok dest' => some (.ok dest' info', reqs)

/-- The identifier-collecting loop of session.go `AssignChildren`: walk
the children in order, collecting identifiers, and stop with the "no ID"
error at the first child whose identifier is empty. -/
def collectChildIDs : List Identifiable → Except Error (List String)
  | [] => .ok []
  | c :: rest =>
    if c.identifier ≠ "" then
      match collectChildIDs rest with
      | .error berr => .error berr
      | .ok ids => .ok (c.identifier :: ids)
    else
      .error (NewBambouError "VSD Error" "One of the object to assign has no ID")

/-- session.go `AssignChildren`: resolve the children URL, validate every
child's identifier, then PUT the JSON array of identifiers. -/
def AssignChildren (s : Session) (w : World) (fuel : Nat)
    (parent : Identifiable) (children : List Identifiable) (identity : Identity) :
    Option (OpResult Unit × List Request) :=
  match getURLForChildrenIdentity s parent identity with
  | .error berr => some (.err berr, [])
  | .ok url =>
    match collectChildIDs children with
    | .error berr => some (.err berr, [])
    | .ok ids =>
      let request : Request := { Method := "PUT", url := url, body := .idList ids, headers := [] }
      match send s w fuel request none with
      | none => none
      | some (reqs, .panic) => some (.panic, reqs)
      | some (reqs, .err berr) => some (.err berr, reqs)
      | some (reqs, .ok _ _) => some (.ok () none, reqs)

/-- The process-wide mutable state of session.go: the `currentSession`
package variable. -/
structure GlobalState where
  currentSession : Option Session
deriving DecidableEq, Repr

/-- session.go `CurrentSession`: the current active session, if any. -/
def CurrentSession (g : GlobalState) : Option Session :=
  g.currentSession

/-- session.go `Reset`: clear the root's API key and unregister the
process-wide current session.  `panic` models the nil-pointer dereference
`s.root.SetAPIKey` would hit on a nil root.  The second component is the
list of dispatched requests — none, since `Reset` never touches the
network. -/
def Reset (s : Session) (g : GlobalState) :
    OpResult (Session × GlobalState) × List Request :=
  match s.root with
  | none => (.panic, [])
  | some root =>
    (.ok ({ s with root := some (SetAPIKey root "") }, { g with currentSession := none }) none, [])

/-- session.go `Start`: register the session as the process-wide current
session, then fetch the root resource; a fetch error is propagated
without undoing the registration.  The global state is returned outside
the `Option` because the assignment happens before the fetch can fail,
diverge or panic.  A nil root makes `FetchEntity(s.root)` dereference a
nil interface, modelled as `panic`. -/
def Start (s : Session) (g : GlobalState) (w : World)
    (decodeEntity : String → Identifiable → Except String Identifiable) (fuel : Nat) :
    GlobalState × Option (OpResult Session × List Request) :=
  let g := { g with currentSession := some s }
  match s.root with
  | none => (g, some (.panic, []))
  | some root =>
    match FetchEntity s w decodeEntity fuel root with
    | none => (g, none)
    | some (.panic, reqs) => (g, some (.panic, reqs))
    | some (.err berr, reqs) => (g, some (.err berr, reqs))
    | some (.ok root' _, reqs) => (g, some (.ok { s with root := some root' } none, reqs))

/-! Sample resources, sessions and worlds used to instantiate witnesses
and counterexamples. -/

/-- A sample root (Rootable) resource. -/
def sampleRoot : Identifiable :=
  { identity := { Category := "me", Name := "me" }, identifier := "rid", isRootable := true, apiKey := "" }

/-- A sample non-root resource with an identifier. -/
def sampleChild : Identifiable :=
  { identity := { Category := "enterprises", Name := "enterprise" }, identifier := "e1",
    isRootable := false, apiKey := "" }

/-- A sample non-root resource with no identifier set. -/
def sampleNoID : Identifiable :=
  { identity := { Category := "enterprises", Name := "enterprise" }, identifier := "",
    isRootable := false, apiKey := "" }

/-- A certificate-mode sample session. -/
def certSession : Session :=
  { root := some sampleRoot, hasCertificate := true, Username := "", Password := "",
    Organization := "", URL := "https://vsd" }

/-- A password-mode sample session with full credentials. -/
def pwSession : Session :=
  { root := some sampleRoot, hasCertificate := false, Username := "user", Password := "pass",
    Organization := "org", URL := "https://vsd" }

/-- A password-mode sample session with no username. -/
def noUserSession : Session :=
  { root := some sampleRoot, hasCertificate := false, Username := "", Password := "pass",
    Organization := "org", URL := "https://vsd" }

/-- A sample 200 response. -/
def okResponse : Response :=
  { statusCode := 200, status := "200 OK", headers := [], contentLength := 2, body := "[]" }

/-- A world answering 200 to every request, never consulting the VSD
error decoder. -/
def alwaysOkWorld : World :=
  { respond := fun _ => .ok okResponse
    decodeVsdErrorList := fun _ => .error "unused" }

/-- A sample GET request. -/
def sampleGetRequest : Request :=
  { Method := "GET", url := "https://vsd/enterprises/e1", body := .empty, headers := [] }

/-- The structured 404 error body of the spec, with title "T" and
description "D". -/
def vsdBody : String :=
  "\x7b\"errors\":[\x7b\"descriptions\":[\x7b\"title\":\"T\",\"description\":\"D\"\x7d]\x7d]\x7d"

/-- The 404 response carrying `vsdBody`. -/
def notFoundResponse : Response :=
  { statusCode := 404, status := "404 Not Found", headers := [], contentLength := 62, body := vsdBody }

/-- A world answering 404 with `vsdBody` to every request; its JSON codec
decodes exactly that body. -/
def notFoundWorld : World :=
  { respond := fun _ => .ok notFoundResponse
    decodeVsdErrorList := fun b =>
      if b = vsdBody then
        .ok { VsdErrors := [{ Descriptions := [{ Title := "T", Description := "D" }] }] }
      else .error "invalid character" }

/-- The valid-JSON 404 body whose error list is empty. -/
def emptyErrorsBody : String := "\x7b\"errors\":[]\x7d"

/-- A world answering 404 with `emptyErrorsBody`; its JSON codec decodes
that body to an empty error list. -/
def emptyErrorsWorld : World :=
  { respond := fun _ =>
      .ok { statusCode := 404, status := "404 Not Found", headers := [], contentLength := 13,
            body := emptyErrorsBody }
    decodeVsdErrorList := fun b =>
      if b = emptyErrorsBody then .ok { VsdErrors := [] } else .error "invalid character" }

/-- The request the 300 branch of `send` rebuilds: same method and body,
the URL with "?responseChoice=1" appended, fresh headers
(`http.NewRequest`). -/
def retryRequest (r : Request) : Request :=
  { Method := r.Method, url := r.url ++ "?responseChoice=1", body := r.body, headers := [] }

/-- A sample 300 response. -/
def multipleChoicesResponse : Response :=
  { statusCode := 300, status := "300 Multiple Choices", headers := [], contentLength := 0, body := "" }

/-- A world answering 300 to the sample URL and to its first retry, and
200 afterwards: the server insists twice. -/
def twice300World : World :=
  { respond := fun r =>
      if r.url = "https://vsd/enterprises/e1" then .ok multipleChoicesResponse
      else if r.url = "https://vsd/enterprises/e1?responseChoice=1" then .ok multipleChoicesResponse
      else .ok okResponse
    decodeVsdErrorList := fun _ => .error "unused" }

/-- A world answering 300 to the sample URL and 200 afterwards. -/
def once300World : World :=
  { respond := fun r =>
      if r.url = "https://vsd/enterprises/e1" then .ok multipleChoicesResponse
      else .ok okResponse
    decodeVsdErrorList := fun _ => .error "unused" }

/-- A 204 no-content response. -/
def noContentResponse : Response :=
  { statusCode := 204, status := "204 No Content", headers := [], contentLength := 0, body := "" }

/-- A world answering 204 to every request. -/
def noContentWorld : World :=
  { respond := fun _ => .ok noContentResponse
    decodeVsdErrorList := fun _ => .error "unused" }

/-- A world answering 500 to every request. -/
def serverErrorWorld : World :=
  { respond := fun _ =>
      .ok { statusCode := 500, status := "500 Internal Server Error", headers := [],
            contentLength := 0, body := "" }
    decodeVsdErrorList := fun _ => .error "unused" }

/-- The identity JSON entity decoder used to instantiate witnesses. -/
def decodeEntityId : String → Identifiable → Except String Identifiable :=
  fun _ o => .ok o

/-- The GET request `FetchEntity` builds for the sample root. -/
def rootGetRequest : Request :=
  { Method := "GET", url := "https://vsd/me", body := .empty, headers := [] }

end Bambou

namespace Bambou

/-! Helper lemmas. -/

/-- Every error produced by `makeAuthorizationHeaders` is titled
"Invalid Credentials". -/
theorem makeAuthorizationHeaders_error_title (s : Session) (e : Error)
    (h : makeAuthorizationHeaders s = .error e) : e.title = "Invalid Credentials" := by
  unfold makeAuthorizationHeaders at h
  by_cases hu : s.Username = ""
  · simp [hu] at h
    cases h
    rfl
  · cases hr : s.root with
    | none =>
      simp [hu, hr] at h
      cases h
      rfl
    | some r =>
      by_cases hpk : s.Password = "" ∧ r.apiKey = ""
      · simp [hu, hr, hpk] at h
        cases h
        rfl
      · simp [hu, hr, hpk] at h

/-- `makeAuthorizationHeaders` fails exactly when the username is empty,
the root is nil, or both password and API key are empty. -/
theorem makeAuthorizationHeaders_error_iff (s : Session) :
    (∃ e, makeAuthorizationHeaders s = .error e) ↔
      (s.Username = "" ∨ s.root = none ∨
        ∃ r, s.root = some r ∧ s.Password = "" ∧ r.apiKey = "") := by
  constructor
  · rintro ⟨e, he⟩
    by_cases hu : s.Username = ""
    · exact Or.inl hu
    · cases hr : s.root with
      | none => exact Or.inr (Or.inl rfl)
      | some r =>
        by_cases hpk : s.Password = "" ∧ r.apiKey = ""
        · exact Or.inr (Or.inr ⟨r, rfl, hpk⟩)
        · exfalso
          simp [makeAuthorizationHeaders, hu, hr, hpk] at he
  · rintro (hu | hr | ⟨r, hr, hp, hk⟩)
    · exact ⟨NewBambouError "Invalid Credentials" "No username given",
        by simp [makeAuthorizationHeaders, hu]⟩
    · by_cases hu : s.Username = ""
      · exact ⟨NewBambouError "Invalid Credentials" "No username given",
          by simp [makeAuthorizationHeaders, hu]⟩
      · exact ⟨NewBambouError "Invalid Credentials" "No root user set",
          by simp [makeAuthorizationHeaders, hu, hr]⟩
    · by_cases hu : s.Username = ""
      · exact ⟨NewBambouError "Invalid Credentials" "No username given",
          by simp [makeAuthorizationHeaders, hu]⟩
      · exact ⟨NewBambouError "Invalid Credentials" "No password or authentication token given",
          by simp [makeAuthorizationHeaders, hu, hr, hp, hk]⟩

/-! The claims. -/

/-- C1: for a Rootable resource, `getPersonalURL` is the base URL plus
the identity name, regardless of the identifier; for a non-root resource
with a non-empty identifier it is the general URL (base URL plus the
identity category) plus the identifier; for a non-root resource with an
empty identifier it is the "no ID set" error and no URL. -/
theorem getPersonalURL_correct (s : Session) (o : Identifiable) :
    getGeneralURL s o = s.URL ++ "/" ++ o.identity.Category ∧
    (o.isRootable = true →
      getPersonalURL s o = .ok (s.URL ++ "/" ++ o.identity.Name)) ∧
    (o.isRootable = false → o.identifier ≠ "" →
      getPersonalURL s o = .ok (getGeneralURL s o ++ "/" ++ o.identifier)) ∧
    (o.isRootable = false → o.identifier = "" →
      getPersonalURL s o =
        .error (NewBambouError "VSD error" "Cannot GetPersonalURL of an object with no ID set")) := by
  refine ⟨rfl, ?_, ?_, ?_⟩
  · intro hroot
    simp [getPersonalURL, hroot]
  · intro hroot hid
    simp [getPersonalURL, hroot, hid]
  · intro hroot hid
    simp [getPersonalURL, hroot, hid]

/-- C1 witness: the non-root branch evaluated on a sample resource. -/
theorem getPersonalURL_correct_witness :
    getPersonalURL certSession sampleChild = .ok "https://vsd/enterprises/e1" :=
  ((getPersonalURL_correct certSession sampleChild).2.2.1 rfl (by decide)).trans rfl

/-- C2: `makeAuthorizationHeaders` returns an authentication error
exactly when the username is empty, the root is nil, or both the
password and the root's API key are empty; otherwise it returns
"XREST " plus the base64 of username:secret, where the secret is the
root's API key when non-empty and the password otherwise. -/
theorem makeAuthorizationHeaders_correct (s : Session) :
    ((∃ e, makeAuthorizationHeaders s = .error e ∧ e.title = "Invalid Credentials") ↔
      (s.Username = "" ∨ s.root = none ∨
        ∃ r, s.root = some r ∧ s.Password = "" ∧ r.apiKey = "")) ∧
    (∀ r, s.root = some r → s.Username ≠ "" → ¬(s.Password = "" ∧ r.apiKey = "") →
      makeAuthorizationHeaders s =
        .ok ("XREST " ++ base64EncodeToString
          (s.Username ++ ":" ++ (if r.apiKey = "" then s.Password else r.apiKey)))) := by
  constructor
  · constructor
    · rintro ⟨e, he, -⟩
      exact (makeAuthorizationHeaders_error_iff s).mp ⟨e, he⟩
    · intro h
      obtain ⟨e, he⟩ := (makeAuthorizationHeaders_error_iff s).mpr h
      exact ⟨e, he, makeAuthorizationHeaders_error_title s e he⟩
  · intro r hr hu hpk
    simp [makeAuthorizationHeaders, hu, hr, hpk]

/-- C2 witness: the success branch evaluated on a sample password
session. -/
theorem makeAuthorizationHeaders_correct_witness :
    makeAuthorizationHeaders pwSession = .ok "XREST dXNlcjpwYXNz" :=
  ((makeAuthorizationHeaders_correct pwSession).2 sampleRoot rfl (by decide) (by decide)).trans rfl

/-- `prepareCommonHeaders` touches only the headers of the request. -/
theorem prepareCommonHeaders_preserves (r : Request) (i : Option FetchingInfo) :
    (prepareCommonHeaders r i).Method = r.Method ∧
    (prepareCommonHeaders r i).url = r.url ∧
    (prepareCommonHeaders r i).body = r.body := by
  unfold prepareCommonHeaders
  cases i with
  | none => simp [reqSetHeader]
  | some info =>
    simp only [reqSetHeader]
    split_ifs <;> simp

/-- `prepareHeaders` touches only the headers of the request. -/
theorem prepareHeaders_preserves (s : Session) (r : Request) (i : Option FetchingInfo) :
    ((prepareHeaders s r i).1).Method = r.Method ∧
    ((prepareHeaders s r i).1).url = r.url ∧
    ((prepareHeaders s r i).1).body = r.body := by
  unfold prepareHeaders
  by_cases hc : s.hasCertificate
  · simpa [hc] using prepareCommonHeaders_preserves r i
  · cases ha : makeAuthorizationHeaders s with
    | error e => simp [hc, ha]
    | ok auth =>
      have h := prepareCommonHeaders_preserves
        (reqSetHeader (reqSetHeader r "Authorization" auth) "X-Nuage-Organization" s.Organization) i
      simpa [hc, ha, reqSetHeader] using h

end Bambou

namespace Bambou

/-! The dispatch claims. -/

/-- C4: on a 404 or 409 response whose body decodes to the one-group,
one-description error payload with title "T" and description "D", `send`
returns the Error with that title and description; when the body fails to
decode, `send` returns the decode error instead.  The JSON codec is the
external `encoding/json`, so the body's decoding is a hypothesis on the
world. -/
theorem send_notfound_error (s : Session) (w : World) (fuel : Nat) (request : Request)
    (info : Option FetchingInfo) (resp : Response) (T D : String)
    (hresp : w.respond (prepareHeaders s request info).1 = .ok resp)
    (hstatus : resp.statusCode = 404 ∨ resp.statusCode = 409) :
    (w.decodeVsdErrorList resp.body =
        .ok { VsdErrors := [{ Descriptions := [{ Title := T, Description := D }] }] } →
      send s w (fuel + 1) request info =
        some ([(prepareHeaders s request info).1], .err (NewBambouError T D))) ∧
    (∀ msg, w.decodeVsdErrorList resp.body = .error msg →
      send s w (fuel + 1) request info =
        some ([(prepareHeaders s request info).1], .err (NewBambouError "" msg))) := by
  constructor
  · intro hdec
    rcases hstatus with h | h <;> simp [send, hresp, h, hdec]
  · intro msg hdec
    rcases hstatus with h | h <;> simp [send, hresp, h, hdec]

/-- C4 witness: the decoded branch evaluated against `notFoundWorld`. -/
theorem send_notfound_error_witness :
    send certSession notFoundWorld 1 sampleGetRequest none =
      some ([(prepareHeaders certSession sampleGetRequest none).1], .err (NewBambouError "T" "D")) :=
  (send_notfound_error certSession notFoundWorld 0 sampleGetRequest none notFoundResponse
    "T" "D" rfl (Or.inl rfl)).1 rfl

/-- C6: on a 404 response whose body is valid JSON with an empty error
list, the decode succeeds, and `send` hits the out-of-range indexing
`VsdErrors[0]` and panics instead of returning an Error. -/
theorem send_notfound_panics :
    emptyErrorsWorld.decodeVsdErrorList emptyErrorsBody = .ok { VsdErrors := [] } ∧
    send certSession emptyErrorsWorld 1 sampleGetRequest none =
      some ([(prepareHeaders certSession sampleGetRequest none).1], .panic) :=
  ⟨rfl, rfl⟩

/-- C3 counterexample: against a server that answers 300 to the original
request and again to the reissued one, `send` dispatches three requests —
it reissues twice, not exactly once, before returning a result to the
caller. -/
theorem send_300_counterexample :
    (∃ resp, twice300World.respond (prepareHeaders certSession sampleGetRequest none).1 = .ok resp ∧
      resp.statusCode = 300) ∧
    (∃ reqs, send certSession twice300World 5 sampleGetRequest none =
        some (reqs, .ok okResponse none) ∧ reqs.length = 3) :=
  ⟨⟨multipleChoicesResponse, rfl, rfl⟩,
   ⟨[(prepareHeaders certSession sampleGetRequest none).1,
     (prepareHeaders certSession (retryRequest sampleGetRequest) none).1,
     (prepareHeaders certSession (retryRequest (retryRequest sampleGetRequest)) none).1],
    rfl, rfl⟩⟩

/-- Whenever the answer to a request is anything but a 300 response — a
2xx success, a 404/409 (whichever way its body decodes, error or panic),
any other status, or a transport failure — `send` dispatches exactly that
one request and returns. -/
theorem send_single_dispatch (s : Session) (w : World) (fuel : Nat) (req : Request)
    (info : Option FetchingInfo)
    (h : ∀ resp, w.respond (prepareHeaders s req info).1 = .ok resp → resp.statusCode ≠ 300) :
    ∃ out, send s w (fuel + 1) req info = some ([(prepareHeaders s req info).1], out) := by
  cases hr : w.respond (prepareHeaders s req info).1 with
  | error msg => exact ⟨.err (NewBambouError "" msg), by simp [send, hr]⟩
  | ok resp =>
    have h300 := h resp hr
    by_cases h2 : resp.statusCode = 200 ∨ resp.statusCode = 201 ∨ resp.statusCode = 204
    · exact ⟨.ok resp (readHeaders resp info), by simp [send, hr, h2]⟩
    · by_cases h4 : resp.statusCode = 409 ∨ resp.statusCode = 404
      · cases hdec : w.decodeVsdErrorList resp.body with
        | error msg =>
          exact ⟨.err (NewBambouError "" msg), by simp [send, hr, h2, h300, h4, hdec]⟩
        | ok vsdresp =>
          cases hv : vsdresp.VsdErrors with
          | nil => exact ⟨.panic, by simp [send, hr, h2, h300, h4, hdec, hv]⟩
          | cons verr rest =>
            cases hd : verr.Descriptions with
            | nil => exact ⟨.panic, by simp [send, hr, h2, h300, h4, hdec, hv, hd]⟩
            | cons d rest2 =>
              exact ⟨.err (NewBambouError d.Title d.Description),
                by simp [send, hr, h2, h300, h4, hdec, hv, hd]⟩
      · exact ⟨.err (NewBambouError "" resp.status), by simp [send, hr, h2, h300, h4]⟩

/-- One step of the 300 branch: on a 300 answer, `send` recurses on the
reissued request — same method and body, "?responseChoice=1" appended —
and prepends the dispatched request to the recursion's trace. -/
theorem send_step_300 (s : Session) (w : World) (fuel : Nat) (request : Request)
    (info : Option FetchingInfo) (resp : Response)
    (hr : w.respond (prepareHeaders s request info).1 = .ok resp)
    (h300 : resp.statusCode = 300) :
    send s w (fuel + 1) request info =
      match send s w fuel (retryRequest request) info with
      | none => none
      | some (reqs, out) => some ((prepareHeaders s request info).1 :: reqs, out) := by
  obtain ⟨hm, hu, hb⟩ := prepareHeaders_preserves s request info
  have hretry :
      ({ Method := ((prepareHeaders s request info).1).Method,
         url := ((prepareHeaders s request info).1).url ++ "?responseChoice=1",
         body := ((prepareHeaders s request info).1).body, headers := [] } : Request) =
        retryRequest request := by
    rw [retryRequest, hm, hu, hb]
  simp only [send, hr, h300]
  simp only [hretry]
  simp

/-- C3 amended: on a 300 response `send` reissues the request to the
original URL with "?responseChoice=1" appended, with the same method and
body; whenever the reissued request's answer is not another 300 response
— any other status, or a transport failure — it is reissued exactly once
before a result is returned, and a 200 answer in particular yields that
response as the success outcome.  (When the server answers 300 again the
reissue repeats, without bound — see the counterexample.) -/
theorem send_300_retry (s : Session) (w : World) (fuel : Nat) (req : Request)
    (info : Option FetchingInfo) (resp : Response)
    (h1 : w.respond (prepareHeaders s req info).1 = .ok resp)
    (h300 : resp.statusCode = 300)
    (h2 : ∀ resp2, w.respond (prepareHeaders s (retryRequest req) info).1 = .ok resp2 →
      resp2.statusCode ≠ 300) :
    (∃ out, send s w (fuel + 2) req info =
      some ([(prepareHeaders s req info).1, (prepareHeaders s (retryRequest req) info).1],
        out)) ∧
    (∀ resp2, w.respond (prepareHeaders s (retryRequest req) info).1 = .ok resp2 →
      resp2.statusCode = 200 →
      send s w (fuel + 2) req info =
        some ([(prepareHeaders s req info).1, (prepareHeaders s (retryRequest req) info).1],
          .ok resp2 (readHeaders resp2 info))) := by
  constructor
  · obtain ⟨out, hout⟩ := send_single_dispatch s w fuel (retryRequest req) info h2
    refine ⟨out, ?_⟩
    rw [send_step_300 s w (fuel + 1) req info resp h1 h300, hout]
  · intro resp2 hr2 h200
    have hout2 : send s w (fuel + 1) (retryRequest req) info =
        some ([(prepareHeaders s (retryRequest req) info).1],
          .ok resp2 (readHeaders resp2 info)) := by
      simp [send, hr2, h200]
    rw [send_step_300 s w (fuel + 1) req info resp h1 h300, hout2]

/-- C3 amended witness: a single 300 answer followed by a 200 makes
`send` dispatch exactly two requests and succeed. -/
theorem send_300_retry_witness :
    send certSession once300World 2 sampleGetRequest none =
      some ([(prepareHeaders certSession sampleGetRequest none).1,
             (prepareHeaders certSession (retryRequest sampleGetRequest) none).1],
        .ok okResponse (readHeaders okResponse none)) :=
  (send_300_retry certSession once300World 0 sampleGetRequest none
    multipleChoicesResponse rfl rfl
    (by
      intro resp2 h
      have h' : Except.ok (ε := String) okResponse = Except.ok resp2 := h
      injection h' with he
      rw [← he]
      decide)).2 okResponse rfl rfl

/-- Outside the 404/409 branch every Error `send` returns carries an
empty title: transport failures, decode failures and generic status
errors all go through `NewBambouError ""`. -/
theorem send_error_title_empty (s : Session) (w : World)
    (hw : ∀ q resp, w.respond q = .ok resp → resp.statusCode ≠ 404 ∧ resp.statusCode ≠ 409) :
    ∀ fuel req info trace e, send s w fuel req info = some (trace, .err e) → e.title = "" := by
  intro fuel
  induction fuel with
  | zero =>
    intro req info trace e h
    simp [send] at h
  | succ n ih =>
    intro req info trace e h
    simp only [send] at h
    cases hr : w.respond (prepareHeaders s req info).1 with
    | error msg =>
      rw [hr] at h
      simp at h
      rw [← h.2]
      rfl
    | ok resp =>
      rw [hr] at h
      by_cases h2 : resp.statusCode = 200 ∨ resp.statusCode = 201 ∨ resp.statusCode = 204
      · simp [h2] at h
      · by_cases h3 : resp.statusCode = 300
        · simp [h2, h3] at h
          split at h
          · simp at h
          · next reqs out heq =>
            simp at h
            rw [h.2] at heq
            exact ih _ info reqs e heq
        · by_cases h4 : resp.statusCode = 409 ∨ resp.statusCode = 404
          · rcases h4 with h4 | h4
            · exact absurd h4 (hw _ resp hr).2
            · exact absurd h4 (hw _ resp hr).1
          · simp [h2, h3, h4] at h
            rw [← h.2]
            rfl

/-- C5: `send` drops the error of `prepareHeaders`.  With a password-mode
session whose credentials are missing, `prepareHeaders` reports an
"Invalid Credentials" error but leaves the request untouched; `send`
still dispatches that request (so no Authorization header was added), a
200 answer makes the call succeed, and no error `send` can return outside
the server-decoded 404/409 path carries the "Invalid Credentials"
title. -/
theorem send_discards_credentials_error (s : Session) (w : World) (req : Request)
    (info : Option FetchingInfo) (fuel : Nat) (e : Error)
    (hcert : s.hasCertificate = false)
    (herr : makeAuthorizationHeaders s = .error e) :
    prepareHeaders s req info = (req, some e) ∧
    e.title = "Invalid Credentials" ∧
    ((∀ q, ∃ resp, w.respond q = .ok resp ∧ resp.statusCode = 200) →
      ∃ resp, send s w (fuel + 1) req info = some ([req], .ok resp (readHeaders resp info))) ∧
    ((∀ q resp, w.respond q = .ok resp → resp.statusCode ≠ 404 ∧ resp.statusCode ≠ 409) →
      ∀ fuel2 trace e2, send s w fuel2 req info = some (trace, .err e2) → e2.title = "") := by
  have hph : prepareHeaders s req info = (req, some e) := by
    simp [prepareHeaders, hcert, herr]
  have h1 : (prepareHeaders s req info).1 = req := by rw [hph]
  refine ⟨hph, makeAuthorizationHeaders_error_title s e herr, ?_, ?_⟩
  · intro hw
    obtain ⟨resp, hr, h200⟩ := hw req
    exact ⟨resp, by simp [send, h1, hr, h200]⟩
  · intro hw404
    exact fun fuel2 trace e2 h => send_error_title_empty s w hw404 fuel2 req info trace e2 h

/-- C5 witness: a session with no username against an all-200 world. -/
theorem send_discards_credentials_error_witness :
    prepareHeaders noUserSession sampleGetRequest none =
      (sampleGetRequest, some (NewBambouError "Invalid Credentials" "No username given")) ∧
    (NewBambouError "Invalid Credentials" "No username given").title = "Invalid Credentials" ∧
    ((∀ q, ∃ resp, alwaysOkWorld.respond q = .ok resp ∧ resp.statusCode = 200) →
      ∃ resp, send noUserSession alwaysOkWorld 1 sampleGetRequest none =
        some ([sampleGetRequest], .ok resp (readHeaders resp none))) ∧
    ((∀ q resp, alwaysOkWorld.respond q = .ok resp →
        resp.statusCode ≠ 404 ∧ resp.statusCode ≠ 409) →
      ∀ fuel2 trace e2, send noUserSession alwaysOkWorld fuel2 sampleGetRequest none =
        some (trace, .err e2) → e2.title = "") :=
  send_discards_credentials_error noUserSession alwaysOkWorld sampleGetRequest none 0
    (NewBambouError "Invalid Credentials" "No username given") rfl rfl

/-- At the first child whose identifier is empty, the collection loop of
`AssignChildren` stops with the "no ID" error; hence any membership of an
identifier-less child makes it fail. -/
theorem collectChildIDs_error_of_mem (children : List Identifiable) (c : Identifiable)
    (hc : c ∈ children) (hid : c.identifier = "") :
    collectChildIDs children =
      .error (NewBambouError "VSD Error" "One of the object to assign has no ID") := by
  induction children with
  | nil => cases hc
  | cons hd tl ih =>
    by_cases hhd : hd.identifier ≠ ""
    · have htl : c ∈ tl := by
        cases hc with
        | head => exact absurd hid hhd
        | tail _ h => exact h
      simp [collectChildIDs, hhd, ih htl]
    · simp [collectChildIDs, hhd]

/-- C7 counterexample: when the parent itself has no identifier,
`AssignChildren` with an identifier-less child still fails without any
request, but with the URL-resolution error ("VSD error" / "Cannot
GetPersonalURL of an object with no ID set"), not the stated "VSD Error"
/ "One of the object to assign has no ID" error. -/
theorem assignChildren_counterexample :
    sampleNoID.identifier = "" ∧
    AssignChildren certSession alwaysOkWorld 1 sampleNoID [sampleNoID] sampleChild.identity =
      some (.err (NewBambouError "VSD error" "Cannot GetPersonalURL of an object with no ID set"), []) ∧
    NewBambouError "VSD error" "Cannot GetPersonalURL of an object with no ID set" ≠
      NewBambouError "VSD Error" "One of the object to assign has no ID" :=
  ⟨rfl, rfl, by decide⟩

/-- C7 amended: a call to `AssignChildren` whose children list contains
an identifier-less child returns an error without dispatching any
request; when the children URL resolves (the parent is Rootable or has an
identifier), that error is "VSD Error" / "One of the object to assign has
no ID", validated over all children before sending. -/
theorem assignChildren_validates_before_sending (s : Session) (w : World) (fuel : Nat)
    (parent : Identifiable) (children : List Identifiable) (identity : Identity)
    (c : Identifiable) (hc : c ∈ children) (hid : c.identifier = "") :
    (∃ e, AssignChildren s w fuel parent children identity = some (.err e, [])) ∧
    (∀ url, getURLForChildrenIdentity s parent identity = .ok url →
      AssignChildren s w fuel parent children identity =
        some (.err (NewBambouError "VSD Error" "One of the object to assign has no ID"), [])) := by
  have hcol := collectChildIDs_error_of_mem children c hc hid
  constructor
  · cases hu : getURLForChildrenIdentity s parent identity with
    | error e => exact ⟨e, by simp [AssignChildren, hu]⟩
    | ok url =>
      exact ⟨NewBambouError "VSD Error" "One of the object to assign has no ID",
        by simp [AssignChildren, hu, hcol]⟩
  · intro url hu
    simp [AssignChildren, hu, hcol]

/-- C7 amended witness: a Rootable parent and one identifier-less child. -/
theorem assignChildren_validates_before_sending_witness :
    AssignChildren certSession alwaysOkWorld 1 sampleRoot [sampleChild, sampleNoID]
      sampleChild.identity =
      some (.err (NewBambouError "VSD Error" "One of the object to assign has no ID"), []) :=
  (assignChildren_validates_before_sending certSession alwaysOkWorld 1 sampleRoot
    [sampleChild, sampleNoID] sampleChild.identity sampleNoID (by simp) rfl).2
    "https://vsd/enterprises" rfl

/-- C8: for a session whose root is set, `Reset` unregisters the
process-wide current session (so `CurrentSession` returns none), clears
the root's API key, and dispatches no request. -/
theorem reset_correct (s : Session) (g : GlobalState) (r : Identifiable)
    (h : s.root = some r) :
    ∃ s' g', (Reset s g).1 = .ok (s', g') none ∧
      CurrentSession g' = none ∧
      (∃ r', s'.root = some r' ∧ r'.apiKey = "") ∧
      (Reset s g).2 = [] := by
  refine ⟨{ s with root := some (SetAPIKey r "") }, { g with currentSession := none },
    ?_, rfl, ⟨SetAPIKey r "", rfl, rfl⟩, ?_⟩
  · simp [Reset, h]
  · simp [Reset, h]

/-- C8 witness: `Reset` on the sample password session with a registered
current session. -/
theorem reset_correct_witness :
    ∃ s' g', (Reset pwSession { currentSession := some pwSession }).1 = .ok (s', g') none ∧
      CurrentSession g' = none ∧
      (∃ r', s'.root = some r' ∧ r'.apiKey = "") ∧
      (Reset pwSession { currentSession := some pwSession }).2 = [] :=
  reset_correct pwSession { currentSession := some pwSession } sampleRoot rfl

/-- C9: when the dispatched response of `FetchChildren` succeeds with
status 204 or zero content length, the caller's destination is returned
untouched with no error and no decode is attempted (the conclusion does
not depend on the decoder); otherwise the body is decoded into the
destination. -/
theorem fetchChildren_no_content {δ : Type} (s : Session) (w : World)
    (decodeChildren : String → δ → Except String δ) (fuel : Nat)
    (parent : Identifiable) (identity : Identity) (dest : δ) (info : Option FetchingInfo)
    (url : String) (reqs : List Request) (resp : Response) (info' : Option FetchingInfo)
    (hu : getURLForChildrenIdentity s parent identity = .ok url)
    (hs : send s w fuel { Method := "GET", url := url, body := .empty, headers := [] } info =
      some (reqs, .ok resp info')) :
    (resp.statusCode = 204 ∨ resp.contentLength = 0 →
      FetchChildren s w decodeChildren fuel parent identity dest info =
        some (.ok dest info', reqs)) ∧
    (¬(resp.statusCode = 204 ∨ resp.contentLength = 0) →
      FetchChildren s w decodeChildren fuel parent identity dest info =
        some ((match decodeChildren resp.body dest with
          | .error msg => OpResult.err (NewBambouError "" msg)
          | .ok dest' => OpResult.ok dest' info'), reqs)) := by
  constructor
  · intro h
    simp [FetchChildren, hu, hs, h]
  · intro h
    cases hdec : decodeChildren resp.body dest <;>
      simp [FetchChildren, hu, hs, h, hdec]

/-- C9 witness: a 204 answer leaves the concrete destination list
untouched even though the decoder would have changed it. -/
theorem fetchChildren_no_content_witness :
    FetchChildren certSession noContentWorld
      (fun _ d => .ok ("decoded" :: d)) 1 sampleRoot sampleChild.identity ["x"] none =
      some (.ok ["x"] none,
        [(prepareHeaders certSession
          { Method := "GET", url := "https://vsd/enterprises", body := .empty, headers := [] }
          none).1]) :=
  (fetchChildren_no_content certSession noContentWorld (fun _ d => .ok ("decoded" :: d)) 1
    sampleRoot sampleChild.identity ["x"] none "https://vsd/enterprises"
    [(prepareHeaders certSession
      { Method := "GET", url := "https://vsd/enterprises", body := .empty, headers := [] }
      none).1]
    noContentResponse none rfl rfl).1 (Or.inl rfl)

/-- C10: `Start` registers the session as the process-wide current
session before fetching the root, and a failed root fetch propagates the
error without rolling the registration back: `CurrentSession` still
returns the session, whatever the fetch did. -/
theorem start_registers_current_session (s : Session) (g : GlobalState) (w : World)
    (decodeEntity : String → Identifiable → Except String Identifiable) (fuel : Nat) :
    CurrentSession (Start s g w decodeEntity fuel).1 = some s ∧
    (∀ r berr reqs, s.root = some r →
      FetchEntity s w decodeEntity fuel r = some (.err berr, reqs) →
      (Start s g w decodeEntity fuel).2 = some (.err berr, reqs)) := by
  constructor
  · unfold Start
    cases hr : s.root with
    | none => rfl
    | some root =>
      rcases hf : FetchEntity s w decodeEntity fuel root with _ | ⟨res, reqs⟩
      · simp [hf, CurrentSession]
      · cases res <;> simp [hf, CurrentSession]
  · intro r berr reqs hr hf
    simp [Start, hr, hf]

/-- C10 witness: a failed `Start` against an all-500 world leaves the
session registered and returns the fetch error. -/
theorem start_registers_current_session_witness :
    CurrentSession (Start certSession { currentSession := none } serverErrorWorld
      decodeEntityId 1).1 = some certSession ∧
    (Start certSession { currentSession := none } serverErrorWorld decodeEntityId 1).2 =
      some (.err (NewBambouError "" "500 Internal Server Error"),
        [(prepareHeaders certSession rootGetRequest none).1]) :=
  ⟨(start_registers_current_session certSession { currentSession := none } serverErrorWorld
      decodeEntityId 1).1,
   (start_registers_current_session certSession { currentSession := none } serverErrorWorld
      decodeEntityId 1).2 sampleRoot (NewBambouError "" "500 Internal Server Error")
      [(prepareHeaders certSession rootGetRequest none).1] rfl rfl⟩

end Bambou
